import Mathlib

/-!
Shallow embedding of the ticket lifecycle / claim subsystem of the Discord
support-ticket bot (src/utils/storage.py, src/utils/views.py,
src/utils/ticket_closing.py, src/utils/database.py, src/commands/tickets.py).

The Python module keeps its state in module-level dictionaries
(`tickets`, `feedback_storage`); we model a dictionary as an association
list keyed by strings, with Python's `d[k] = v` as a replace-or-append
insertion.  Wall-clock time (`datetime.now(timezone.utc)`) is made an
explicit `now : Nat` parameter; the ISO-string and float-timestamp pair
that the Python code stores for each event (`claimed_time` /
`claimed_timestamp`, etc.) are both modelled as the same natural number.
The `ticket_logs` mirror dictionary (updated in parallel by
`close_ticket` / `update_ticket_times` when an entry exists, and consulted
by `get_ticket_log` only after a closing log was stored) is not modelled:
every operation verified here reads and writes the `tickets` dictionary,
and before closure `get_ticket_log` falls back to the `tickets` record.
-/

namespace TicketBot

/-- Association-list lookup, modelling Python dict lookup `d.get(k)`. -/
def lookupA {α : Type} (k : String) : List (String × α) → Option α
  | [] => none
  | (k₁, v) :: rest => if k₁ = k then some v else lookupA k rest

/-- Association-list store, modelling Python dict assignment `d[k] = v`
(replaces the existing binding, otherwise appends). -/
def insertA {α : Type} (k : String) (v : α) : List (String × α) → List (String × α)
  | [] => [(k, v)]
  | (k₁, v₁) :: rest => if k₁ = k then (k, v) :: rest else (k₁, v₁) :: insertA k v rest

/-- One record of the module-level `tickets` dictionary, with exactly the
keys written by `create_ticket` (storage.py:111) plus the keys added later
by `close_ticket` (`closed_at`) and `update_ticket_times` (`creator_id`,
`claimer_id`, `responder_id`, `resolver_id`). -/
structure Ticket where
  ticket_number : String
  user_id : String
  channel_id : String
  category : String
  status : String
  created_at : Nat
  details : String
  guild_id : Option Nat
  claimed_by : String
  closed_by : Option String
  close_reason : Option String
  created_timestamp : Nat
  first_response_time : Option Nat
  first_response_timestamp : Option Nat
  claimed_time : Option Nat
  claimed_timestamp : Option Nat
  resolution_time : Option Nat
  resolution_timestamp : Option Nat
  response_duration : Option Int
  resolution_duration : Option Int
  closed_at : Option Nat
  creator_id : Option String
  claimer_id : Option String
  responder_id : Option String
  resolver_id : Option String
deriving DecidableEq, Repr

/-- The `tickets` dictionary. -/
abbrev Store := List (String × Ticket)

/-- Python `str.isdigit()`: nonempty and every character a digit. -/
def isDigitString (s : String) : Bool :=
  !s.isEmpty && s.toList.all (fun c => c.isDigit)

/-- storage.py:564 `validate_ticket_input`: all four parameters truthy
(nonempty) and the ticket number numeric. -/
def validate_ticket_input (ticket_number user_id channel_id category : String) : Bool :=
  !ticket_number.isEmpty && !user_id.isEmpty && !channel_id.isEmpty &&
    !category.isEmpty && isDigitString ticket_number

/-- storage.py:111 `create_ticket`: validates, then stores a fresh record
with `status = "open"`, `claimed_by = "Unclaimed"`, both creation time
fields set to now, and every other event field unset. -/
def create_ticket (st : Store) (now : Nat) (ticket_number user_id channel_id category : String)
    (details : String) (guild_id : Option Nat) : Bool × Store :=
  if validate_ticket_input ticket_number user_id channel_id category then
    (true, insertA ticket_number
      { ticket_number := ticket_number
        user_id := user_id
        channel_id := channel_id
        category := category
        status := "open"
        created_at := now
        details := details
        guild_id := guild_id
        claimed_by := "Unclaimed"
        closed_by := none
        close_reason := none
        created_timestamp := now
        first_response_time := none
        first_response_timestamp := none
        claimed_time := none
        claimed_timestamp := none
        resolution_time := none
        resolution_timestamp := none
        response_duration := none
        resolution_duration := none
        closed_at := none
        creator_id := none
        claimer_id := none
        responder_id := none
        resolver_id := none } st)
  else (false, st)

/-- storage.py:152 `claim_ticket`: if the ticket exists, *unconditionally*
overwrite `claimed_by` (and the claim-time pair) — claiming writes the new
claimer whatever the current value is, and the sentinel claimer
`"Unclaimed"` clears the claim fields.  Returns false only when the ticket
is missing. -/
def claim_ticket (st : Store) (now : Nat) (ticket_number claimer : String) : Bool × Store :=
  match lookupA ticket_number st with
  | none => (false, st)
  | some t =>
    if claimer = "Unclaimed" then
      (true, insertA ticket_number
        { t with claimed_by := "Unclaimed", claimed_time := none, claimed_timestamp := none } st)
    else
      (true, insertA ticket_number
        { t with claimed_by := claimer, claimed_time := some now, claimed_timestamp := some now } st)

/-- Python `close_reason or "Completed"`: `None` and the empty string both
fall back to `"Completed"`. -/
def close_reason_or (r : Option String) : String :=
  match r with
  | none => "Completed"
  | some s => if s = "" then "Completed" else s

/-- storage.py:364 `close_ticket`: if the ticket exists, set `status`,
`closed_at` and `close_reason` and return true — there is no check that the
ticket is not already closed. -/
def close_ticket (st : Store) (now : Nat) (ticket_number : String)
    (close_reason : Option String) : Bool × Store :=
  match lookupA ticket_number st with
  | none => (false, st)
  | some t =>
    (true, insertA ticket_number
      { t with status := "closed", closed_at := some now,
               close_reason := some (close_reason_or close_reason) } st)

/-- storage.py:395 `update_ticket_times` restricted to the `tickets`
dictionary.  `created` and `claimed` overwrite unconditionally;
`first_response` and `resolved` are guarded by `if not ...get(field)` and
by the truthiness of `created_timestamp` (a float, falsy when 0). -/
def update_ticket_times (st : Store) (now : Nat) (ticket_number event_type : String)
    (user_id : Option String) : Bool × Store :=
  match lookupA ticket_number st with
  | none => (false, st)
  | some t =>
    if event_type = "created" then
      (true, insertA ticket_number
        { t with created_at := now, created_timestamp := now, creator_id := user_id } st)
    else if event_type = "claimed" then
      (true, insertA ticket_number
        { t with claimed_time := some now, claimed_timestamp := some now,
                 claimer_id := user_id } st)
    else if event_type = "first_response" then
      if t.first_response_time = none then
        if t.created_timestamp ≠ 0 then
          (true, insertA ticket_number
            { t with first_response_time := some now, first_response_timestamp := some now,
                     response_duration := some ((now : Int) - (t.created_timestamp : Int)),
                     responder_id := user_id } st)
        else (true, st)
      else (true, st)
    else if event_type = "resolved" then
      if t.resolution_time = none then
        if t.created_timestamp ≠ 0 then
          (true, insertA ticket_number
            { t with resolution_time := some now, resolution_timestamp := some now,
                     resolution_duration := some ((now : Int) - (t.created_timestamp : Int)),
                     resolver_id := user_id } st)
        else (true, st)
      else (true, st)
    else (true, st)

/-- storage.py:89 `has_open_ticket`: some ticket of this user has status
`"open"`. -/
def has_open_ticket (st : Store) (user_id : String) : Bool :=
  st.any (fun p => p.2.user_id = user_id && p.2.status = "open")

/-- Python `int(...)` on a digit string, reading the decimal digits. -/
def strToNat (s : String) : Nat :=
  s.toList.foldl (fun n c => n * 10 + (c.toNat - 48)) 0

/-- The numeric ticket keys, as in storage.py:73
`(int(num) for num in current_tickets if num.isdigit())`. -/
def numericKeys (st : Store) : List Nat :=
  st.filterMap (fun p => if isDigitString p.1 then some (strToNat p.1) else none)

/-- `max` of a list of naturals, `none` on the empty list (where Python's
`max` raises `ValueError`, caught by the surrounding handler). -/
def listMax? : List Nat → Option Nat
  | [] => none
  | x :: xs =>
    match listMax? xs with
    | none => some x
    | some m => some (max x m)

/-- storage.py:64 `get_next_ticket_number` (non-fallback path): when the
dictionary is nonempty and has numeric keys, bump the counter to
`max(max_ticket + 1, counter)`, then increment and return it.  The random
90000–99999 surrogate is only produced when an exception escapes this
arithmetic, which the embedded code cannot raise. -/
def get_next_ticket_number (st : Store) (counter : Nat) : String × Nat :=
  let counter₁ :=
    if st.isEmpty then counter
    else
      match listMax? (numericKeys st) with
      | some m => max (m + 1) counter
      | none => counter
  (Nat.repr (counter₁ + 1), counter₁ + 1)

/-- One record of the `feedback_storage` dictionary
(storage.py:197 `store_feedback`). -/
structure FeedbackRecord where
  ticket_number : String
  user_id : String
  rating : Nat
  feedback : String
  suggestions : String
  carrier_ratings : List (String × Nat)
  timestamp : Nat
  submitted_at : Nat
deriving DecidableEq, Repr

/-- The `feedback_storage` dictionary. -/
abbrev FeedbackStore := List (String × FeedbackRecord)

/-- storage.py:197 `store_feedback`: build the record and assign
`feedback_storage[ticket_name] = feedback_data` unconditionally — there is
no check for an existing record — and return true. -/
def store_feedback (fs : FeedbackStore) (now : Nat) (ticket_name user_id : String)
    (rating : Nat) (feedback suggestions : String)
    (carrier_ratings : List (String × Nat)) : Bool × FeedbackStore :=
  (true, insertA ticket_name
    { ticket_number := ticket_name
      user_id := user_id
      rating := rating
      feedback := feedback
      suggestions := suggestions
      carrier_ratings := carrier_ratings
      timestamp := now
      submitted_at := now } fs)

/-- storage.py:221 `get_feedback` (`{}` for a missing ticket becomes
`none`). -/
def get_feedback (fs : FeedbackStore) (ticket_name : String) : Option FeedbackRecord :=
  lookupA ticket_name fs

/-- views.py:142 `carrier_roles`: the category → required staff role table
of the claim callback. -/
def carrier_roles (category : String) : Option String :=
  if category = "Slayer Carry" then some "Slayer Carrier"
  else if category = "Normal Dungeon Carry" then some "Normal Dungeon Carrier"
  else if category = "Master Dungeon Carry" then some "Master Dungeon Carrier"
  else if category = "Staff Applications" then some "Admin"
  else none

/-- views.py:149: the claim is refused unless the category has a required
role and the actor carries it or one of Admin / Staff / Moderator. -/
def callback_authorized (category : String) (roles : List String) : Bool :=
  match carrier_roles category with
  | none => false
  | some required =>
    roles.any (fun r => r = required || r = "Admin" || r = "Staff" || r = "Moderator")

/-- Result delivered to the pressing user by
`TicketControlsView.claim_ticket_callback`. -/
inductive ClaimOutcome where
  | notFound
  | unauthorized
  | claimed
  | unclaimed
  | claimedByOther (name : String)
  | failed
deriving DecidableEq, Repr

/-- views.py:135: the callback's read of the current claimer via
`get_ticket_log(...).get('claimed_by', 'Unclaimed')`; before a closing log
exists, `get_ticket_log` falls back to the `tickets` record
(storage.py:322). -/
def observe_claimed_by (st : Store) (ticket_number : String) : Option String :=
  (lookupA ticket_number st).map (fun t => t.claimed_by)

/-- views.py:158 onwards: the code of `claim_ticket_callback` *after* the
read of `claimed_by`, acting on a possibly stale `observed` value.  On an
observed `"Unclaimed"` it claims via `storage.claim_ticket` (which never
fails for an existing ticket) and records the `claimed` timing event; on
`observed = actor_name` it unclaims; otherwise it reports the ticket as
claimed by the observed other. -/
def claim_callback_apply (st : Store) (now : Nat)
    (ticket_number actor_name actor_id observed : String) : ClaimOutcome × Store :=
  if observed = "Unclaimed" then
    match claim_ticket st now ticket_number actor_name with
    | (true, st₁) =>
      (ClaimOutcome.claimed, (update_ticket_times st₁ now ticket_number "claimed" (some actor_id)).2)
    | (false, st₁) => (ClaimOutcome.failed, st₁)
  else if observed = actor_name then
    match claim_ticket st now ticket_number "Unclaimed" with
    | (true, st₁) => (ClaimOutcome.unclaimed, st₁)
    | (false, st₁) => (ClaimOutcome.failed, st₁)
  else (ClaimOutcome.claimedByOther observed, st)

/-- views.py:128 `claim_ticket_callback` run without interleaving: fresh
read, role check, then `claim_callback_apply` on the fresh observation. -/
def claim_ticket_callback (st : Store) (now : Nat)
    (ticket_number actor_name actor_id : String) (roles : List String) : ClaimOutcome × Store :=
  match lookupA ticket_number st with
  | none => (ClaimOutcome.notFound, st)
  | some t =>
    if callback_authorized t.category roles then
      claim_callback_apply st now ticket_number actor_name actor_id t.claimed_by
    else (ClaimOutcome.unauthorized, st)

/-- tickets.py:30 `TicketCommands.create_ticket_channel`, restricted to its
storage-relevant steps: allocate a number with `get_next_ticket_number`,
persist with `create_ticket`, then record the `created` timing event.
The flow performs *no* `has_open_ticket` check before allocating.  Returns
the allocated number on success together with the new store and counter. -/
def create_ticket_channel (st : Store) (counter : Nat) (now : Nat)
    (user_id channel_id category details : String) (guild_id : Option Nat) :
    Option String × Store × Nat :=
  let alloc := get_next_ticket_number st counter
  match create_ticket st now alloc.1 user_id channel_id category details guild_id with
  | (true, st₁) =>
    (some alloc.1, (update_ticket_times st₁ now alloc.1 "created" (some user_id)).2, alloc.2)
  | (false, st₁) => (none, st₁, alloc.2)

/-- database.py:220 `DatabaseManager.close_ticket`: sets `status` and
`closed_at` (no close reason) on the existing ticket. -/
def db_close_ticket (st : Store) (now : Nat) (ticket_number : String) : Bool × Store :=
  match lookupA ticket_number st with
  | none => (false, st)
  | some t =>
    (true, insertA ticket_number { t with status := "closed", closed_at := some now } st)

/-- ticket_closing.py:266 `TicketCloser.close_ticket`, restricted to its
storage-relevant steps: refuse when the ticket is missing or already
closed (returning false before any side effect), otherwise generate the
transcript once and close in the database.  The third component counts how
many times the transcript side effect fired. -/
def ticket_closer_close (st : Store) (now : Nat) (ticket_number : String) :
    Bool × Store × Nat :=
  match lookupA ticket_number st with
  | none => (false, st, 0)
  | some t =>
    if t.status = "closed" then (false, st, 0)
    else
      match db_close_ticket st now ticket_number with
      | (true, st₁) => (true, st₁, 1)
      | (false, st₁) => (false, st₁, 1)

/-! Concrete fixtures: a store holding the single open ticket `"10001"`
opened by user `"U"` at time 50, and states derived from it. -/

/-- The record `create_ticket` stores for ticket `"10001"` of user `"U"`
at time 50. -/
def tU : Ticket :=
  { ticket_number := "10001"
    user_id := "U"
    channel_id := "888"
    category := "Slayer Carry"
    status := "open"
    created_at := 50
    details := ""
    guild_id := none
    claimed_by := "Unclaimed"
    closed_by := none
    close_reason := none
    created_timestamp := 50
    first_response_time := none
    first_response_timestamp := none
    claimed_time := none
    claimed_timestamp := none
    resolution_time := none
    resolution_timestamp := none
    response_duration := none
    resolution_duration := none
    closed_at := none
    creator_id := none
    claimer_id := none
    responder_id := none
    resolver_id := none }

/-- The store after `create_ticket` of ticket `"10001"` for user `"U"`. -/
def stOne : Store := (create_ticket [] 50 "10001" "U" "888" "Slayer Carry" "" none).2

/-- `stOne` after actor `"A"` claimed ticket `"10001"` at time 100. -/
def stClaimedA : Store := (claim_ticket stOne 100 "10001" "A").2

/-- `stClaimedA` after actor `"B"` claimed the same ticket again at 200. -/
def stReclaimedB : Store := (claim_ticket stClaimedA 200 "10001" "B").2

/-- `stReclaimedB` after an unclaim at time 300. -/
def stUnclaimed : Store := (claim_ticket stReclaimedB 300 "10001" "Unclaimed").2

/-- `stOne` after the ticket was closed at time 70 with reason `"done"`. -/
def stClosed : Store := (close_ticket stOne 70 "10001" (some "done")).2

/-- The store produced by staff `"A"` running the claim callback — with its
observation taken on `stOne` — to completion. -/
def raceStA : Store := (claim_callback_apply stOne 100 "10001" "A" "1" "Unclaimed").2

/-- Staff `"B"` running the claim callback on `raceStA`, but acting on the
stale observation `"Unclaimed"` that was read from `stOne` before `"A"`
wrote. -/
def raceStB : Store := (claim_callback_apply raceStA 101 "10001" "B" "2" "Unclaimed").2

/-- The creation flow run a second time for user `"U"` on `stOne`, with
`"U"`'s first ticket still open. -/
def dupFlow : Option String × Store × Nat :=
  create_ticket_channel stOne 10001 60 "U" "889" "Slayer Carry" "" none

/-- A feedback store holding user `"U"`'s 5-star record for ticket
`"10001"`, submitted at time 10. -/
def fbOne : FeedbackStore := (store_feedback [] 10 "10001" "U" 5 "great" "" []).2

/-- Looking up the key just stored finds the stored value. -/
theorem lookupA_insertA_self {α : Type} (k : String) (v : α) (l : List (String × α)) :
    lookupA k (insertA k v l) = some v := by
  induction l with
  | nil => simp [insertA, lookupA]
  | cons p rest ih =>
    obtain ⟨k₁, v₁⟩ := p
    by_cases h : k₁ = k
    · simp [insertA, lookupA, h]
    · simp [insertA, lookupA, h, ih]

/-- Storing one key leaves every other key's binding unchanged. -/
theorem lookupA_insertA_ne {α : Type} {k k' : String} (v : α) (l : List (String × α))
    (h : k' ≠ k) : lookupA k' (insertA k v l) = lookupA k' l := by
  induction l with
  | nil => simp [insertA, lookupA, Ne.symm h]
  | cons p rest ih =>
    obtain ⟨k₁, v₁⟩ := p
    by_cases h₁ : k₁ = k
    · subst h₁
      simp [insertA, lookupA, Ne.symm h]
    · by_cases h₂ : k₁ = k'
      · simp [insertA, lookupA, h₁, h₂, h]
      · simp [insertA, lookupA, h₁, h₂, ih]

/-- Every member of a list is bounded by its `listMax?`. -/
theorem le_listMax? {l : List Nat} {k : Nat} (hk : k ∈ l) :
    ∃ m, listMax? l = some m ∧ k ≤ m := by
  induction l with
  | nil => cases hk
  | cons x xs ih =>
    rcases List.mem_cons.mp hk with h | h
    · subst h
      cases hx : listMax? xs with
      | none => exact ⟨k, by simp [listMax?, hx], le_refl k⟩
      | some m => exact ⟨max k m, by simp [listMax?, hx], le_max_left k m⟩
    · obtain ⟨m, hm, hkm⟩ := ih h
      exact ⟨max x m, by simp [listMax?, hm], le_trans hkm (le_max_right x m)⟩

/-- C1: the storage-layer claim operation is not a conditional update.  In
the interleaving where two distinct eligible actors `"A"` and `"B"` both
read `claimed_by = "Unclaimed"` from the store before either writes, both
callback executions return the `claimed` outcome, because
`storage.claim_ticket` overwrites `claimed_by` unconditionally: applied to
the state in which `"A"` already holds the claim it still returns true and
installs `"B"`, erasing `"A"`'s claim.  This refutes the property that
exactly one attempt succeeds and every other receives ClaimedByOther. -/
theorem c1_claim_race_both_win :
    callback_authorized "Slayer Carry" ["Slayer Carrier"] = true ∧
    callback_authorized "Slayer Carry" ["Master Dungeon Carrier", "Staff"] = true ∧
    observe_claimed_by stOne "10001" = some "Unclaimed" ∧
    (claim_callback_apply stOne 100 "10001" "A" "1" "Unclaimed").1 = ClaimOutcome.claimed ∧
    observe_claimed_by raceStA "10001" = some "A" ∧
    (claim_ticket raceStA 101 "10001" "B").1 = true ∧
    (claim_callback_apply raceStA 101 "10001" "B" "2" "Unclaimed").1 = ClaimOutcome.claimed ∧
    observe_claimed_by raceStB "10001" = some "B" :=
  ⟨rfl, rfl, rfl, rfl, rfl, rfl, rfl, rfl⟩

/-- C2: the creation flow never consults `has_open_ticket`.  With user
`"U"`'s ticket `"10001"` still open (`has_open_ticket` is true), a second
run of `create_ticket_channel` for `"U"` is not rejected: it allocates a
second ticket number (`"10003"`) and persists a second open ticket record
for `"U"`, so both tickets are simultaneously open. -/
theorem c2_duplicate_create_not_rejected :
    has_open_ticket stOne "U" = true ∧
    dupFlow.1 = some "10003" ∧
    (lookupA "10001" dupFlow.2.1).map (fun t => (t.user_id, t.status)) = some ("U", "open") ∧
    (lookupA "10003" dupFlow.2.1).map (fun t => (t.user_id, t.status)) = some ("U", "open") :=
  ⟨rfl, rfl, rfl, rfl⟩

/-- C3 counterexample: at the storage layer, closing is not idempotent.
With ticket `"10001"` already closed at time 70, a second
`storage.close_ticket` at time 80 returns true (the claim demands false)
and rewrites `closed_at` from 70 to 80 (the claim demands no state
change). -/
theorem c3_second_close_returns_true :
    (lookupA "10001" stClosed).map (fun t => t.status) = some "closed" ∧
    (lookupA "10001" stClosed).map (fun t => t.closed_at) = some (some 70) ∧
    (close_ticket stClosed 80 "10001" (some "done")).1 = true ∧
    (lookupA "10001" (close_ticket stClosed 80 "10001" (some "done")).2).map
      (fun t => t.closed_at) = some (some 80) :=
  ⟨rfl, rfl, rfl, rfl⟩

/-- C3 amended: the manager layer (`TicketCloser.close_ticket`) is
idempotent — the first close of a non-closed ticket returns true, fires
the transcript side effect exactly once and marks the ticket closed with
`closed_at` set (though this path persists no close reason), and a second
close returns false, changes no state and fires no side effect; the
storage-layer `close_ticket`, by contrast, returns true again on a second
call and overwrites `closed_at` and `close_reason`. -/
theorem ticket_closer_close_idempotent (st : Store) (now now' : Nat) (tn : String)
    (t : Ticket) (hl : lookupA tn st = some t) (hs : t.status ≠ "closed") :
    (ticket_closer_close st now tn).1 = true ∧
    (ticket_closer_close st now tn).2.2 = 1 ∧
    (lookupA tn (ticket_closer_close st now tn).2.1).map (fun u => u.status) = some "closed" ∧
    (lookupA tn (ticket_closer_close st now tn).2.1).map (fun u => u.closed_at) =
      some (some now) ∧
    (ticket_closer_close (ticket_closer_close st now tn).2.1 now' tn).1 = false ∧
    (ticket_closer_close (ticket_closer_close st now tn).2.1 now' tn).2.1 =
      (ticket_closer_close st now tn).2.1 ∧
    (ticket_closer_close (ticket_closer_close st now tn).2.1 now' tn).2.2 = 0 := by
  simp only [ticket_closer_close, db_close_ticket, hl, hs, if_false, lookupA_insertA_self,
    Option.map_some, if_true, and_true, and_self]
  simp [hs]

/-- Witness for the idempotent manager-layer close, on the concrete open
ticket `"10001"` of `stOne`. -/
theorem ticket_closer_close_idempotent_witness :
    (ticket_closer_close stOne 70 "10001").1 = true ∧
    (ticket_closer_close stOne 70 "10001").2.2 = 1 ∧
    (lookupA "10001" (ticket_closer_close stOne 70 "10001").2.1).map (fun u => u.status) =
      some "closed" ∧
    (lookupA "10001" (ticket_closer_close stOne 70 "10001").2.1).map (fun u => u.closed_at) =
      some (some 70) ∧
    (ticket_closer_close (ticket_closer_close stOne 70 "10001").2.1 80 "10001").1 = false ∧
    (ticket_closer_close (ticket_closer_close stOne 70 "10001").2.1 80 "10001").2.1 =
      (ticket_closer_close stOne 70 "10001").2.1 ∧
    (ticket_closer_close (ticket_closer_close stOne 70 "10001").2.1 80 "10001").2.2 = 0 :=
  ticket_closer_close_idempotent stOne 70 80 "10001" tU rfl (by decide)

/-- C4: recording a first response is first-write-wins.  If the ticket's
`first_response_time` is unset (and its creation timestamp is recorded),
the `first_response` event sets `first_response_time` to the event time and
`response_duration` to event time minus creation time; a second
`first_response` event then returns true and leaves the entire store
unchanged. -/
theorem record_first_response_first_write_wins (st : Store) (t₁ t₂ : Nat) (tn : String)
    (uid uid' : Option String) (t : Ticket) (hl : lookupA tn st = some t)
    (h₀ : t.first_response_time = none) (hc : t.created_timestamp ≠ 0) :
    (update_ticket_times st t₁ tn "first_response" uid).1 = true ∧
    (lookupA tn (update_ticket_times st t₁ tn "first_response" uid).2).map
      (fun u => u.first_response_time) = some (some t₁) ∧
    (lookupA tn (update_ticket_times st t₁ tn "first_response" uid).2).map
      (fun u => u.response_duration) =
      some (some ((t₁ : Int) - (t.created_timestamp : Int))) ∧
    update_ticket_times (update_ticket_times st t₁ tn "first_response" uid).2 t₂ tn
      "first_response" uid' = (true, (update_ticket_times st t₁ tn "first_response" uid).2) := by
  simp [update_ticket_times, hl, h₀, hc, lookupA_insertA_self]

/-- Witness for first-write-wins first responses: ticket `"10001"` of
`stOne` with first-response events at times 100 and then 200. -/
theorem record_first_response_first_write_wins_witness :
    (update_ticket_times stOne 100 "10001" "first_response" (some "R")).1 = true ∧
    (lookupA "10001" (update_ticket_times stOne 100 "10001" "first_response" (some "R")).2).map
      (fun u => u.first_response_time) = some (some 100) ∧
    (lookupA "10001" (update_ticket_times stOne 100 "10001" "first_response" (some "R")).2).map
      (fun u => u.response_duration) =
      some (some ((100 : Int) - (tU.created_timestamp : Int))) ∧
    update_ticket_times (update_ticket_times stOne 100 "10001" "first_response" (some "R")).2
      200 "10001" "first_response" (some "S") =
      (true, (update_ticket_times stOne 100 "10001" "first_response" (some "R")).2) :=
  record_first_response_first_write_wins stOne 100 200 "10001" (some "R") (some "S") tU
    rfl rfl (by decide)

/-- C5 counterexample: allocation does not return the current maximum
allocated number + 1.  With ticket `"10001"` registered and the counter at
10001, the maximum allocated number is 10001, so the claim predicts
`"10002"`; the code bumps the counter to `max(10001 + 1, 10001) = 10002`
and then increments again, returning `"10003"`. -/
theorem c5_allocation_skips_a_number :
    numericKeys stOne = [10001] ∧
    (get_next_ticket_number stOne 10001).1 = "10003" ∧
    (get_next_ticket_number stOne 10001).1 ≠ "10002" :=
  ⟨rfl, rfl, by decide⟩

/-- C5 amended: allocation returns `max(max allocated + 1, counter) + 1`
(which can skip past maximum + 1, leaving gaps).  The returned counter is
strictly greater than both the incoming counter and every numeric ticket
number currently in the store, so successive non-fallback allocations are
strictly increasing and never return an already-allocated number; the
random 90000–99999 fallback taken on a storage error carries no such
guarantee. -/
theorem allocation_strictly_increases (st : Store) (counter : Nat) :
    counter < (get_next_ticket_number st counter).2 ∧
    (∀ k, k ∈ numericKeys st → k < (get_next_ticket_number st counter).2) ∧
    (get_next_ticket_number st counter).1 = Nat.repr ((get_next_ticket_number st counter).2) := by
  refine ⟨?_, ?_, rfl⟩
  · unfold get_next_ticket_number
    by_cases he : st.isEmpty
    · simp [he]
    · simp only [he, Bool.false_eq_true, if_false]
      cases hx : listMax? (numericKeys st) with
      | none => simp
      | some m =>
        simp only []
        have := le_max_right (m + 1) counter
        omega
  · intro k hk
    obtain ⟨m, hm, hkm⟩ := le_listMax? hk
    unfold get_next_ticket_number
    have he : st.isEmpty = false := by
      cases st with
      | nil =>
        simp [numericKeys] at hk
      | cons a l => simp
    simp only [he, Bool.false_eq_true, if_false, hm]
    have := le_max_left (m + 1) counter
    omega

/-- Witness for the amended allocation bounds, at the concrete store
`stOne` and counter 10001. -/
theorem allocation_strictly_increases_witness :
    10001 < (get_next_ticket_number stOne 10001).2 ∧
    (∀ k, k ∈ numericKeys stOne → k < (get_next_ticket_number stOne 10001).2) ∧
    (get_next_ticket_number stOne 10001).1 =
      Nat.repr ((get_next_ticket_number stOne 10001).2) :=
  allocation_strictly_increases stOne 10001

/-- C6 counterexample: `claimed_by` non-sentinel is not equivalent to a
`Claimed` status.  After actor `"A"` successfully claims ticket `"10001"`,
`claimed_by` is `"A"` but `status` is still `"open"` — exactly the status
an unclaimed ticket has at creation — so no status value distinguishes
claimed from open tickets. -/
theorem c6_claim_leaves_status_open :
    (lookupA "10001" stOne).map (fun t => (t.claimed_by, t.status)) =
      some ("Unclaimed", "open") ∧
    (claim_ticket stOne 100 "10001" "A").1 = true ∧
    (lookupA "10001" stClaimedA).map (fun t => (t.claimed_by, t.status)) =
      some ("A", "open") :=
  ⟨rfl, rfl, rfl⟩

/-- C6 amended: a successful claim sets `claimed_by` to the actor but
never modifies `status` (the storage layer has no `Claimed` status —
claiming leaves the status exactly as it was), while ticket creation
starts with the `"Unclaimed"` sentinel and status `"open"`. -/
theorem claim_sets_claimer_but_not_status (st stc : Store) (now nowc : Nat)
    (tn claimer tn' uid cid cat det : String) (gid : Option Nat) (t : Ticket)
    (hl : lookupA tn st = some t) (hc : claimer ≠ "Unclaimed")
    (hv : validate_ticket_input tn' uid cid cat = true) :
    (claim_ticket st now tn claimer).1 = true ∧
    (lookupA tn (claim_ticket st now tn claimer).2).map (fun u => u.claimed_by) =
      some claimer ∧
    (lookupA tn (claim_ticket st now tn claimer).2).map (fun u => u.status) =
      some t.status ∧
    (create_ticket stc nowc tn' uid cid cat det gid).1 = true ∧
    (lookupA tn' (create_ticket stc nowc tn' uid cid cat det gid).2).map
      (fun u => (u.claimed_by, u.status)) = some ("Unclaimed", "open") := by
  simp [claim_ticket, create_ticket, hl, hc, hv, lookupA_insertA_self]

/-- Witness for the amended claim/status relationship, claiming ticket
`"10001"` of `stOne` as `"A"` and creating ticket `"20000"`. -/
theorem claim_sets_claimer_but_not_status_witness :
    (claim_ticket stOne 100 "10001" "A").1 = true ∧
    (lookupA "10001" (claim_ticket stOne 100 "10001" "A").2).map (fun u => u.claimed_by) =
      some "A" ∧
    (lookupA "10001" (claim_ticket stOne 100 "10001" "A").2).map (fun u => u.status) =
      some tU.status ∧
    (create_ticket [] 60 "20000" "V" "999" "Support Tickets" "" none).1 = true ∧
    (lookupA "20000" (create_ticket [] 60 "20000" "V" "999" "Support Tickets" "" none).2).map
      (fun u => (u.claimed_by, u.status)) = some ("Unclaimed", "open") :=
  claim_sets_claimer_but_not_status stOne [] 100 60 "10001" "A" "20000" "V" "999"
    "Support Tickets" "" none tU rfl (by decide) (by decide)

/-- C7 counterexample: feedback is not one-per-ticket.  With user `"U"`'s
5-star record already stored for ticket `"10001"`, a second submission by
`"V"` returns true (the claim demands false) and `get_feedback` afterwards
returns `"V"`'s 1-star record — the first record is overwritten, not
kept. -/
theorem c7_second_feedback_overwrites :
    (get_feedback fbOne "10001").map (fun r => (r.user_id, r.rating)) = some ("U", 5) ∧
    (store_feedback fbOne 20 "10001" "V" 1 "bad" "" []).1 = true ∧
    (get_feedback (store_feedback fbOne 20 "10001" "V" 1 "bad" "" []).2 "10001").map
      (fun r => (r.user_id, r.rating)) = some ("V", 1) :=
  ⟨rfl, rfl, rfl⟩

/-- C7 amended: feedback submission is last-write-wins — `store_feedback`
always returns true and installs the new record under the ticket number,
so a repeated submit replaces the stored record and a subsequent get
returns the latest submission. -/
theorem store_feedback_last_write_wins (fs : FeedbackStore) (now : Nat)
    (tn uid : String) (rating : Nat) (fb sug : String) (cr : List (String × Nat)) :
    (store_feedback fs now tn uid rating fb sug cr).1 = true ∧
    get_feedback (store_feedback fs now tn uid rating fb sug cr).2 tn =
      some { ticket_number := tn, user_id := uid, rating := rating, feedback := fb,
             suggestions := sug, carrier_ratings := cr, timestamp := now,
             submitted_at := now } :=
  ⟨rfl, lookupA_insertA_self tn _ fs⟩

/-- C8 counterexample: registration does not enforce uniqueness of
`ticket_number`.  With ticket `"10001"` of user `"U"` already stored,
`create_ticket` for the same number and a different user returns true (the
claim demands false) and silently replaces the existing record — the
stored `user_id` becomes `"V"`. -/
theorem c8_create_overwrites_existing_number :
    (lookupA "10001" stOne).map (fun t => t.user_id) = some "U" ∧
    (create_ticket stOne 60 "10001" "V" "999" "Support Tickets" "" none).1 = true ∧
    (lookupA "10001" (create_ticket stOne 60 "10001" "V" "999" "Support Tickets" "" none).2).map
      (fun t => t.user_id) = some "V" :=
  ⟨rfl, rfl, rfl⟩

/-- C8 amended: `create_ticket` returns false with no write when
validation fails (a missing required field or a non-numeric ticket
number), but when validation passes it stores the new record
unconditionally and returns true, silently replacing any existing ticket
under the same number. -/
theorem create_ticket_validates_but_overwrites (st : Store) (now : Nat)
    (tn uid cid cat det : String) (gid : Option Nat) :
    (validate_ticket_input tn uid cid cat = false →
      create_ticket st now tn uid cid cat det gid = (false, st)) ∧
    (validate_ticket_input tn uid cid cat = true →
      (create_ticket st now tn uid cid cat det gid).1 = true ∧
      (lookupA tn (create_ticket st now tn uid cid cat det gid).2).map
        (fun t => (t.user_id, t.status)) = some (uid, "open")) := by
  constructor
  · intro hv
    simp [create_ticket, hv]
  · intro hv
    simp [create_ticket, hv, lookupA_insertA_self]

/-- Witness for validation and overwrite behaviour of `create_ticket`: an
empty user id is rejected with no write, and a valid input (over the
occupied store `stOne`) is stored with status `"open"`. -/
theorem create_ticket_validates_but_overwrites_witness :
    create_ticket [] 5 "10001" "" "888" "Slayer Carry" "" none = (false, []) ∧
    (create_ticket stOne 60 "10001" "V" "999" "Support Tickets" "" none).1 = true ∧
    (lookupA "10001" (create_ticket stOne 60 "10001" "V" "999" "Support Tickets" "" none).2).map
      (fun t => (t.user_id, t.status)) = some ("V", "open") :=
  ⟨(create_ticket_validates_but_overwrites [] 5 "10001" "" "888" "Slayer Carry" "" none).1
      (by decide),
   (create_ticket_validates_but_overwrites stOne 60 "10001" "V" "999" "Support Tickets" ""
      none).2 (by decide)⟩

/-- C9 counterexample: `claimed_at` is neither write-once nor immutable.
Actor `"A"`'s claim at time 100 records `claimed_time = 100`; actor
`"B"`'s later claim overwrites it to 200, and an unclaim clears it to
null — the originally recorded value survives neither. -/
theorem c9_claimed_time_overwritten_and_cleared :
    (lookupA "10001" stClaimedA).map (fun t => t.claimed_time) = some (some 100) ∧
    (lookupA "10001" stReclaimedB).map (fun t => t.claimed_time) = some (some 200) ∧
    (lookupA "10001" stUnclaimed).map (fun t => t.claimed_time) = some none :=
  ⟨rfl, rfl, rfl⟩

/-- C9 amended: the claim timestamp is last-write-wins — every successful
claim overwrites `claimed_time` with the current time regardless of any
previously recorded value, and unclaiming clears it to null. -/
theorem claimed_time_last_write_wins (st : Store) (now : Nat) (tn claimer : String)
    (t : Ticket) (hl : lookupA tn st = some t) (hc : claimer ≠ "Unclaimed") :
    (lookupA tn (claim_ticket st now tn claimer).2).map (fun u => u.claimed_time) =
      some (some now) ∧
    (lookupA tn (claim_ticket st now tn "Unclaimed").2).map (fun u => u.claimed_time) =
      some none := by
  simp [claim_ticket, hl, hc, lookupA_insertA_self]

/-- Witness for the last-write-wins claim timestamp: re-claiming ticket
`"10001"` of `stClaimedA` (already claimed at 100) at time 200 yields 200,
and unclaiming yields null. -/
theorem claimed_time_last_write_wins_witness :
    (lookupA "10001" (claim_ticket stClaimedA 200 "10001" "B").2).map
      (fun u => u.claimed_time) = some (some 200) ∧
    (lookupA "10001" (claim_ticket stClaimedA 200 "10001" "Unclaimed").2).map
      (fun u => u.claimed_time) = some none :=
  claimed_time_last_write_wins stClaimedA 200 "10001" "B"
    { tU with claimed_by := "A", claimed_time := some 100, claimed_timestamp := some 100 }
    rfl (by decide)

/-- C10: the storage-layer close modifies only `status`, `closed_at` and
`close_reason`.  Closing an existing ticket returns true, installs exactly
the record-update of those three fields, leaves every other ticket's
binding untouched, and every remaining field of the closed ticket —
identity, channel, category, details, guild, claim state and all timing
fields — is unchanged. -/
theorem close_ticket_frame (st : Store) (now : Nat) (tn : String) (r : Option String)
    (t : Ticket) (hl : lookupA tn st = some t) :
    (close_ticket st now tn r).1 = true ∧
    lookupA tn (close_ticket st now tn r).2 =
      some { t with status := "closed", closed_at := some now,
                    close_reason := some (close_reason_or r) } ∧
    (∀ k, k ≠ tn → lookupA k (close_ticket st now tn r).2 = lookupA k st) ∧
    (lookupA tn (close_ticket st now tn r).2).map (fun u =>
        (u.ticket_number, u.user_id, u.channel_id, u.category, u.details, u.guild_id,
         u.claimed_by, u.closed_by, u.created_at, u.created_timestamp,
         u.first_response_time, u.first_response_timestamp, u.claimed_time,
         u.claimed_timestamp, u.resolution_time, u.resolution_timestamp,
         u.response_duration, u.resolution_duration, u.creator_id, u.claimer_id,
         u.responder_id, u.resolver_id)) =
      some (t.ticket_number, t.user_id, t.channel_id, t.category, t.details, t.guild_id,
         t.claimed_by, t.closed_by, t.created_at, t.created_timestamp,
         t.first_response_time, t.first_response_timestamp, t.claimed_time,
         t.claimed_timestamp, t.resolution_time, t.resolution_timestamp,
         t.response_duration, t.resolution_duration, t.creator_id, t.claimer_id,
         t.responder_id, t.resolver_id) := by
  refine ⟨?_, ?_, ?_, ?_⟩
  · simp [close_ticket, hl]
  · simp [close_ticket, hl, lookupA_insertA_self]
  · intro k hk
    simp [close_ticket, hl, lookupA_insertA_ne _ _ hk]
  · simp [close_ticket, hl, lookupA_insertA_self]

/-- Witness for the close frame property on ticket `"10001"` of `stOne`,
closed at time 70 with reason `"done"`. -/
theorem close_ticket_frame_witness :
    (close_ticket stOne 70 "10001" (some "done")).1 = true ∧
    lookupA "10001" (close_ticket stOne 70 "10001" (some "done")).2 =
      some { tU with status := "closed", closed_at := some 70,
                     close_reason := some (close_reason_or (some "done")) } ∧
    (∀ k, k ≠ "10001" →
      lookupA k (close_ticket stOne 70 "10001" (some "done")).2 = lookupA k stOne) ∧
    (lookupA "10001" (close_ticket stOne 70 "10001" (some "done")).2).map (fun u =>
        (u.ticket_number, u.user_id, u.channel_id, u.category, u.details, u.guild_id,
         u.claimed_by, u.closed_by, u.created_at, u.created_timestamp,
         u.first_response_time, u.first_response_timestamp, u.claimed_time,
         u.claimed_timestamp, u.resolution_time, u.resolution_timestamp,
         u.response_duration, u.resolution_duration, u.creator_id, u.claimer_id,
         u.responder_id, u.resolver_id)) =
      some (tU.ticket_number, tU.user_id, tU.channel_id, tU.category, tU.details,
         tU.guild_id, tU.claimed_by, tU.closed_by, tU.created_at, tU.created_timestamp,
         tU.first_response_time, tU.first_response_timestamp, tU.claimed_time,
         tU.claimed_timestamp, tU.resolution_time, tU.resolution_timestamp,
         tU.response_duration, tU.resolution_duration, tU.creator_id, tU.claimer_id,
         tU.responder_id, tU.resolver_id) :=
  close_ticket_frame stOne 70 "10001" (some "done") tU rfl

end TicketBot
